import Mathlib

/-!
Verification of the assessment-record store of the coronary-artery-disease
prediction web application (backend variants `app_mongodb.py`, `app_v2.py`,
`app_sqlite_old.py`).

The Python code is shallowly embedded: dictionaries/rows become structures,
MongoDB/SQLite collections become lists held in a store structure, float
values become rationals, timestamps become naturals (`datetime.utcnow()`
increases with insertion), and fallible storage access is modelled by an
`Option` store parameter (`none` models a storage backend whose access
raises, which the Python code catches with `except`).
-/

/-! ### Risk categorization (`get_risk_category` in `app_mongodb.py` and
`app_v2.py`; the two definitions are textually identical) -/

/-- Embedding of `get_risk_category(probability)`: returns the category
string and the display color, branching exactly as the Python `if/elif/else`
does. Probabilities are modelled as rationals. -/
def get_risk_category (probability : ℚ) : String × String :=
  if probability < 33/100 then ("LOW", "#27ae60")
  else if probability < 67/100 then ("MEDIUM", "#f39c12")
  else ("HIGH", "#e74c3c")

/-- Embedding of `get_recommendation(risk_category)` (dictionary lookup with
an `ERROR` fallback). -/
def get_recommendation (risk_category : String) : String :=
  if risk_category == "LOW" then
    "Continue regular health check-ups. Maintain healthy lifestyle."
  else if risk_category == "MEDIUM" then
    "Schedule appointment with cardiologist for further evaluation."
  else if risk_category == "HIGH" then
    "URGENT: Consult cardiologist immediately. Consider additional testing."
  else
    "Unable to generate recommendation due to error."

/-! ### Data model

One `User` per row/document of the `users` collection, one `Assessment`
per row/document of the `assessments` (resp. `predictions`) collection.
Server-assigned identifiers (`_id` ObjectIds in MongoDB, AUTOINCREMENT
primary keys in SQLite) are modelled as naturals handed out by a counter in
the store, so ascending `id` is insertion order. `created_at` timestamps
(`datetime.utcnow()` / `CURRENT_TIMESTAMP`) are naturals. -/

structure User where
  id : Nat
  username : String
  email : String
  password_hash : String
  role : String
  created_at : Nat
deriving DecidableEq

structure Assessment where
  id : Nat
  user_id : Nat
  age : Option ℚ
  anaemia : Option ℚ
  creatinine_phosphokinase : Option ℚ
  diabetes : Option ℚ
  ejection_fraction : Option ℚ
  high_blood_pressure : Option ℚ
  platelets : Option ℚ
  serum_creatinine : Option ℚ
  serum_sodium : Option ℚ
  sex : Option ℚ
  smoking : Option ℚ
  time : Option ℚ
  probability : ℚ
  risk_category : String
  created_at : Nat
deriving DecidableEq

/-- The MongoDB database of `app_mongodb.py`: the `users`, `assessments`
and the two role-profile collections, plus id counters. -/
structure MongoStore where
  users : List User
  assessments : List Assessment
  patient_profiles : List Nat
  doctor_profiles : List Nat
  next_user_id : Nat
  next_assessment_id : Nat
deriving DecidableEq

/-- The SQLite database of `app_v2.py` / `app_sqlite_old.py`: `users` and
`predictions` tables plus AUTOINCREMENT counters. -/
structure SqlStore where
  users : List User
  predictions : List Assessment
  next_user_id : Nat
  next_prediction_id : Nat
deriving DecidableEq

/-! ### Query ordering

Every multi-row query in the backends sorts by `created_at` descending
(`.sort(created_at, -1)` in MongoDB, `ORDER BY created_at DESC` in
SQLite).  Neither query names a secondary sort key, so the relative order
of rows with equal `created_at` is not specified by the query; the
relational model `ValidSortOutput` below captures exactly what the query
requests.  `sort_created_desc` is a canonical deterministic refinement
used to give the query functions executable definitions (a stable sort, so
equal timestamps stay in insertion order); it is one admissible output
among those of `ValidSortOutput`, adequate for properties of a single
query.  A property that compares the orders of separately issued queries
(the pagination/export cross-check) is NOT guaranteed by the program on
equal timestamps, so it is stated against the relational model
(`ValidPaginatedSlice` / `ValidFilteredResult` below), in which each query
independently picks any admissible order. -/

def created_desc (a b : Assessment) : Prop := b.created_at ≤ a.created_at

instance : DecidableRel created_desc :=
  fun a b => inferInstanceAs (Decidable (b.created_at ≤ a.created_at))

instance : IsTotal Assessment created_desc :=
  ⟨fun a b => Nat.le_total b.created_at a.created_at⟩

instance : IsTrans Assessment created_desc :=
  ⟨fun _ _ _ h1 h2 => Nat.le_trans h2 h1⟩

def sort_created_desc (l : List Assessment) : List Assessment :=
  List.insertionSort created_desc l

/-- A list sorted by creation timestamp descending. -/
def SortedCreatedDesc (l : List Assessment) : Prop := l.Pairwise created_desc

/-- The outputs admissible for a cursor over `docs` sorted only by
`created_at` descending: any permutation of `docs` that is so sorted. -/
def ValidSortOutput (docs out : List Assessment) : Prop :=
  docs.Perm out ∧ SortedCreatedDesc out

/-- The tie-break rule the specification asserts: rows with identical
creation timestamps appear in ascending internal id (insertion) order. -/
def TieBreakAscendingId (out : List Assessment) : Prop :=
  out.Pairwise (fun a b => a.created_at = b.created_at → a.id < b.id)

/-! ### String helpers (Python `in` on lowercased strings, SQL
`LIKE` with a `%…%` pattern, which is ASCII case-insensitive) -/

def lower_chars (s : String) : List Char := s.data.map Char.toLower

def chars_start_with : List Char → List Char → Bool
  | [], _ => true
  | _ :: _, [] => false
  | a :: p, b :: s => a == b && chars_start_with p s

def chars_contain (p : List Char) : List Char → Bool
  | [] => chars_start_with p []
  | b :: t => chars_start_with p (b :: t) || chars_contain p t

/-! ### Python `int(...)` on strings

The pagination parameters arrive as query-string values and go through
`int(page)` / `int(per_page)` inside a `try`.  `py_int` models the Python
`int` on strings: an optional sign followed by one or more decimal digits;
anything else fails (the Python tolerance for surrounding whitespace and
underscore separators is not modelled — no claim involves such inputs). -/

def parse_digits : List Char → Nat → Option Nat
  | [], acc => some acc
  | c :: cs, acc =>
      if c.isDigit then parse_digits cs (10 * acc + (c.toNat - 48)) else none

def py_int_chars : List Char → Option Int
  | [] => none
  | c :: cs =>
      if c == '-' then
        match cs with
        | [] => none
        | _ :: _ => (parse_digits cs 0).map (fun n => -(n : Int))
      else if c == '+' then
        match cs with
        | [] => none
        | _ :: _ => (parse_digits cs 0).map (fun n => (n : Int))
      else (parse_digits (c :: cs) 0).map (fun n => (n : Int))

def py_int (s : String) : Option Int := py_int_chars s.data

/-- Python whitespace characters recognised by `str.strip()`. -/
def is_py_space (c : Char) : Bool :=
  c == ' ' || c == '\t' || c == '\n' || c == '\r' || c == '\x0b' || c == '\x0c'

def drop_space : List Char → List Char
  | [] => []
  | c :: t => if is_py_space c then drop_space t else c :: t

/-- Python `str.strip()`: remove leading and trailing whitespace. -/
def py_strip (s : String) : String :=
  String.mk ((drop_space (drop_space s.data).reverse).reverse)

/-! ### Password hashing

Modelled from the spec: `werkzeug.security.generate_password_hash` /
`check_password_hash` are library primitives outside this repository; the
spec requires only that the stored value is a one-way hash validated by the
check.  They are modelled by an injective tagging function with the single
property `check_password_hash h p = true` iff `h = generate_password_hash p`. -/

def generate_password_hash (password : String) : String := "pbkdf2:" ++ password

def check_password_hash (hash password : String) : Bool :=
  hash == generate_password_hash password

/-! ### Views (the dictionaries the query functions build per row) -/

structure FeatureView where
  age : Option ℚ
  anaemia : Option ℚ
  creatinine_phosphokinase : Option ℚ
  diabetes : Option ℚ
  ejection_fraction : Option ℚ
  high_blood_pressure : Option ℚ
  platelets : Option ℚ
  serum_creatinine : Option ℚ
  serum_sodium : Option ℚ
  sex : Option ℚ
  smoking : Option ℚ
  time : Option ℚ
deriving DecidableEq

structure AssessmentView where
  id : Nat
  user_id : Nat
  username : String
  features : FeatureView
  probability : ℚ
  risk_category : String
  created_at : Nat
deriving DecidableEq

/-- The per-row dictionary built by `get_patient_assessments`. -/
structure PatientAssessmentView where
  id : Nat
  probability : ℚ
  risk_category : String
  created_at : Nat
  age : Option ℚ
  ejection_fraction : Option ℚ
deriving DecidableEq

def feature_view (a : Assessment) : FeatureView :=
  { age := a.age, anaemia := a.anaemia,
    creatinine_phosphokinase := a.creatinine_phosphokinase,
    diabetes := a.diabetes, ejection_fraction := a.ejection_fraction,
    high_blood_pressure := a.high_blood_pressure, platelets := a.platelets,
    serum_creatinine := a.serum_creatinine, serum_sodium := a.serum_sodium,
    sex := a.sex, smoking := a.smoking, time := a.time }

def patient_view (a : Assessment) : PatientAssessmentView :=
  { id := a.id, probability := a.probability,
    risk_category := a.risk_category, created_at := a.created_at,
    age := a.age, ejection_fraction := a.ejection_fraction }

/-- Lookup `find_one` on the users collection by the _id key. -/
def find_user (s : MongoStore) (uid : Nat) : Option User :=
  s.users.find? (fun u => u.id == uid)

/-- The username exposed by the doctor queries: the username of the owning
user, or the literal `"Unknown"` when the user document is missing. -/
def username_of (s : MongoStore) (uid : Nat) : String :=
  match find_user s uid with
  | some u => u.username
  | none => "Unknown"

def assessment_view (s : MongoStore) (a : Assessment) : AssessmentView :=
  { id := a.id, user_id := a.user_id, username := username_of s a.user_id,
    features := feature_view a, probability := a.probability,
    risk_category := a.risk_category, created_at := a.created_at }

/-! ### MongoDB variant operations (`app_mongodb.py`) -/

/-- Embedding of `register_user` (app_mongodb.py:116-190).  Validation runs
before any database access; a `none` store models a raised storage access
(`get_db()` failing), caught by the blanket `except` clause, whose message
is prefixed `Registration error:` (quotes of the Python role message are
elided).  On success the user document plus the role profile document are
inserted. -/
def register_user (st : Option MongoStore) (username email password role : String)
    (now : Nat) : (Bool × String) × Option MongoStore :=
  if username.length < 3 then
    ((false, "Username must be at least 3 characters"), st)
  else if password.length < 6 then
    ((false, "Password must be at least 6 characters"), st)
  else if role != "patient" && role != "doctor" then
    ((false, "Invalid role. Must be patient or doctor"), st)
  else
    match st with
    | none =>
        ((false, "Registration error: MongoDB not initialized. Call init_mongodb() first."), none)
    | some s =>
        if s.users.any (fun u => u.username == username) then
          ((false, "Username already exists"), some s)
        else if s.users.any (fun u => u.email == email) then
          ((false, "Email already registered"), some s)
        else
          let u : User :=
            { id := s.next_user_id, username := username, email := email,
              password_hash := generate_password_hash password, role := role,
              created_at := now }
          let s' :=
            { s with
              users := s.users ++ [u],
              next_user_id := s.next_user_id + 1,
              patient_profiles :=
                if role == "patient" then s.patient_profiles ++ [u.id]
                else s.patient_profiles,
              doctor_profiles :=
                if role == "doctor" then s.doctor_profiles ++ [u.id]
                else s.doctor_profiles }
          ((true, "Registration successful"), some s')

structure UserInfo where
  user_id : Nat
  role : String
  username : String
deriving DecidableEq

/-- Embedding of `login_user` (app_mongodb.py:192-225).  A raised storage
access (`none` store) is caught by the blanket `except` and yields
`(False, None)` — the same value returned for an unknown username or a
wrong password. -/
def login_user (st : Option MongoStore) (username password : String) :
    Bool × Option UserInfo :=
  match st with
  | none => (false, none)
  | some s =>
      match s.users.find? (fun u => u.username == username) with
      | none => (false, none)
      | some u =>
          if check_password_hash u.password_hash password then
            (true, some { user_id := u.id, role := u.role, username := u.username })
          else (false, none)

inductive LoginResponse
  | page (error : Option String)
  | redirect_doctor
  | redirect_patient
deriving DecidableEq

/-- Embedding of the `/login` route (app_mongodb.py:836-863). -/
def login_route (st : Option MongoStore) (username password : String) : LoginResponse :=
  let u := py_strip username
  let p := py_strip password
  if u == "" || p == "" then .page (some "Username and password required")
  else
    match login_user st u p with
    | (true, some info) =>
        if info.role == "doctor" then .redirect_doctor else .redirect_patient
    | _ => .page (some "Invalid username or password")

/-- Python `features.get(name)` on the features dictionary. -/
def fget (m : List (String × ℚ)) (k : String) : Option ℚ :=
  (m.find? (fun kv => kv.1 == k)).map (fun kv => kv.2)

/-- Embedding of `save_assessment` (app_mongodb.py:260-305).  Returns the
success boolean together with the updated store and the list of messages
printed to the server log; a raised storage access is caught and turned
into `False` plus a printed warning. -/
def save_assessment (st : Option MongoStore) (user_id : Nat)
    (features : List (String × ℚ)) (probability : ℚ) (risk_category : String)
    (now : Nat) : (Bool × Option MongoStore) × List String :=
  match st with
  | none =>
      ((false, none),
        ["Error saving assessment: MongoDB not initialized. Call init_mongodb() first."])
  | some s =>
      let a : Assessment :=
        { id := s.next_assessment_id, user_id := user_id,
          age := fget features "age", anaemia := fget features "anaemia",
          creatinine_phosphokinase := fget features "creatinine_phosphokinase",
          diabetes := fget features "diabetes",
          ejection_fraction := fget features "ejection_fraction",
          high_blood_pressure := fget features "high_blood_pressure",
          platelets := fget features "platelets",
          serum_creatinine := fget features "serum_creatinine",
          serum_sodium := fget features "serum_sodium",
          sex := fget features "sex", smoking := fget features "smoking",
          time := fget features "time",
          probability := probability, risk_category := risk_category,
          created_at := now }
      ((true, some { s with
          assessments := s.assessments ++ [a],
          next_assessment_id := s.next_assessment_id + 1 }), [])

/-- Embedding of `get_patient_assessments` (app_mongodb.py:307-344):
`find` filtered by the owning user id, sorted by creation date descending, each row
projected to the six-field dictionary. -/
def get_patient_assessments (st : Option MongoStore) (uid : Nat) :
    List PatientAssessmentView :=
  match st with
  | none => []
  | some s =>
      (sort_created_desc (s.assessments.filter (fun a => a.user_id == uid))).map
        patient_view

/-- The MongoDB filter document built by `get_assessments_paginated` /
`get_assessments_filtered`: risk-category equality and inclusive
`created_at` bounds.  `none` models an absent (or empty, hence falsy)
query parameter. -/
def matches_risk_date (risk : Option String) (start_date end_date : Option Nat)
    (a : Assessment) : Bool :=
  (match risk with | none => true | some r => a.risk_category == r) &&
  (match start_date with | none => true | some d => decide (d ≤ a.created_at)) &&
  (match end_date with | none => true | some d => decide (a.created_at ≤ d))

/-- The username post-filter of the Python row loops:
`if username and username.lower() not in uname.lower(): continue`. -/
def username_keeps (username : Option String) (uname : String) : Bool :=
  match username with
  | none => true
  | some pat => chars_contain (lower_chars pat) (lower_chars uname)

/-- The pagination parameter parsing of `get_assessments_paginated`
(app_mongodb.py:470-477): `max(1, int(·))` for both values, any parse
failure resetting both to the defaults `(1, 10)`. -/
def parse_page_params (page per_page : String) : Nat × Nat :=
  match py_int page, py_int per_page with
  | some p, some n => ((max 1 p).toNat, (max 1 n).toNat)
  | _, _ => (1, 10)

structure PaginatedResult where
  assessments : List AssessmentView
  total : Nat
deriving DecidableEq

/-- Core of `get_assessments_paginated` (app_mongodb.py:434-522) after
parameter parsing: the count and the skip/limit slice use only the
risk/date filter document; the username condition is applied inside the
row loop, i.e. after the slice has been taken.  The cursor order is
refined to the canonical `sort_created_desc` (one admissible output of
`ValidSortOutput`); properties that depend on two separately issued
cursors agreeing on equal-timestamp order are stated against
`ValidPaginatedSlice` instead, not against this refinement. -/
def get_assessments_paginated_core (s : MongoStore) (page per_page : Nat)
    (risk username : Option String) (start_date end_date : Option Nat) :
    List AssessmentView × Nat :=
  let filtered := s.assessments.filter (matches_risk_date risk start_date end_date)
  let total := filtered.length
  let skip := (page - 1) * per_page
  let slice := ((sort_created_desc filtered).drop skip).take per_page
  (((slice.map (assessment_view s)).filter
      (fun v => username_keeps username v.username)), total)

/-- Embedding of `get_assessments_paginated` (app_mongodb.py:434-522).
A raised storage access is caught and yields an empty result with total 0. -/
def get_assessments_paginated (st : Option MongoStore) (page per_page : String)
    (risk username : Option String) (start_date end_date : Option Nat) :
    PaginatedResult :=
  match st with
  | none => ⟨[], 0⟩
  | some s =>
      let pn := parse_page_params page per_page
      let r := get_assessments_paginated_core s pn.1 pn.2 risk username
        start_date end_date
      ⟨r.1, r.2⟩

/-- Embedding of `get_assessments_filtered` (app_mongodb.py:524-590), the
unpaginated query used for CSV export: same risk/date filter document and
sort, same per-row username post-filter, no slice.  As with the paginated
core, the cursor order is refined to the canonical `sort_created_desc`;
the relational `ValidFilteredResult` keeps the order unspecified. -/
def get_assessments_filtered (st : Option MongoStore)
    (risk username : Option String) (start_date end_date : Option Nat) :
    List AssessmentView :=
  match st with
  | none => []
  | some s =>
      ((sort_created_desc
          (s.assessments.filter (matches_risk_date risk start_date end_date))).map
        (assessment_view s)).filter (fun v => username_keeps username v.username)

inductive PredictResponse
  | predict_page (error : Option String)
  | result_page (probability : ℚ) (risk_category risk_color recommendation username : String)
deriving DecidableEq

/-- Python `round(x, 2)` (round half to even), modelled over ℚ. -/
def round_half_even (x : ℚ) : ℤ :=
  let f := ⌊x⌋
  let r := x - f
  if r < 1/2 then f
  else if 1/2 < r then f + 1
  else if f % 2 = 0 then f else f + 1

def round2 (x : ℚ) : ℚ := (round_half_even (x * 100) : ℚ) / 100

/-- The feature-collection loop of `patient_predict`: walk `FEATURE_NAMES`
in order; the first missing/empty form value aborts with that name; float
parsing at the HTTP boundary is modelled by the form already holding
rationals. -/
def collect_features (form : String → Option ℚ) :
    List String → Except String (List (String × ℚ) × List ℚ)
  | [] => .ok ([], [])
  | n :: rest =>
      match form n with
      | none => .error n
      | some v =>
          match collect_features form rest with
          | .error m => .error m
          | .ok (fi, d) => .ok ((n, v) :: fi, v :: d)

/-- Embedding of the `/patient/predict` POST handler
(app_mongodb.py:927-974).  `score` is the frozen scaler+classifier
composite (`model.predict_proba(scaler.transform([data]))[0][1]`), an
external artifact taken as a parameter.  The call to `save_assessment`
happens before the result is rendered, but its boolean result is ignored;
only its log output is kept. -/
def patient_predict (model_loaded : Bool) (score : List ℚ → ℚ)
    (st : Option MongoStore) (user_id : Nat) (username : String)
    (feature_names : List String) (form : String → Option ℚ) (now : Nat) :
    PredictResponse × List String :=
  if !model_loaded then (.predict_page (some "Model not loaded"), [])
  else
    match collect_features form feature_names with
    | .error n => (.predict_page (some ("Missing " ++ n)), [])
    | .ok (fi, data) =>
        let probability := score data
        let rc := get_risk_category probability
        let sv := save_assessment st user_id fi probability rc.1 now
        (.result_page (round2 (probability * 100)) rc.1 rc.2
          (get_recommendation rc.1) username, sv.2)

/-! ### SQLite multi-role variant (`app_v2.py`) -/

/-- Embedding of `register_user` in `app_v2.py` (lines 77-103).  The only
database-level check is on the username; the `email` column carries no
uniqueness constraint and no lookup, so duplicate emails are accepted.
A raised storage access yields the `Registration error:` message. -/
def v2_register_user (st : Option SqlStore) (username email password role : String)
    (now : Nat) : (Bool × String) × Option SqlStore :=
  if username.length < 3 then
    ((false, "Username must be at least 3 characters"), st)
  else if password.length < 6 then
    ((false, "Password must be at least 6 characters"), st)
  else if role != "patient" && role != "doctor" then
    ((false, "Invalid role"), st)
  else
    match st with
    | none => ((false, "Registration error: unable to open database file"), none)
    | some s =>
        if s.users.any (fun u => u.username == username) then
          ((false, "Username already exists"), some s)
        else
          let u : User :=
            { id := s.next_user_id, username := username, email := email,
              password_hash := generate_password_hash password, role := role,
              created_at := now }
          ((true, "Registration successful"),
            some { s with
              users := s.users ++ [u],
              next_user_id := s.next_user_id + 1 })

/-- Embedding of `login_user` in `app_v2.py` (lines 105-119): identical
outcome structure to the MongoDB variant. -/
def v2_login_user (st : Option SqlStore) (username password : String) :
    Bool × Option UserInfo :=
  match st with
  | none => (false, none)
  | some s =>
      match s.users.find? (fun u => u.username == username) with
      | none => (false, none)
      | some u =>
          if check_password_hash u.password_hash password then
            (true, some { user_id := u.id, role := u.role, username := u.username })
          else (false, none)

/-- Embedding of `get_patient_predictions` in `app_v2.py` (lines 159-182):
`SELECT * FROM predictions WHERE user_id = ? ORDER BY created_at DESC`,
projected per row to the same six-field dictionary as the MongoDB variant. -/
def get_patient_predictions (st : Option SqlStore) (uid : Nat) :
    List PatientAssessmentView :=
  match st with
  | none => []
  | some s =>
      (sort_created_desc (s.predictions.filter (fun a => a.user_id == uid))).map
        patient_view

/-! ### SQLite single-DB doctor queries (`app_sqlite_old.py`) -/

/-- The pagination parameter parsing of `get_predictions_paginated`
(app_sqlite_old.py:293-301): parse failure resets both to `(1, 10)`;
a numeric `page < 1` becomes `1`, a numeric `per_page < 1` becomes the
default `10`. -/
def sq_parse_page_params (page per_page : String) : Nat × Nat :=
  match py_int page, py_int per_page with
  | some p, some n =>
      let p := if p < 1 then 1 else p
      let n := if n < 1 then 10 else n
      (p.toNat, n.toNat)
  | _, _ => (1, 10)

/-- The inner join `predictions p JOIN users u ON p.user_id = u.id`,
ordered by `p.created_at DESC`.  `users.id` is the primary key, so each
prediction row joins with at most one user; a prediction whose user is
missing is dropped by the inner join.  The order is the canonical stable
refinement of the requested sort. -/
def sq_join (s : SqlStore) : List (Assessment × User) :=
  (sort_created_desc s.predictions).filterMap
    (fun p => (s.users.find? (fun u => u.id == p.user_id)).map (fun u => (p, u)))

/-- The WHERE clause assembled by `get_predictions_paginated` /
`get_predictions_filtered`: a conjunction of risk equality, case-insensitive
`LIKE %username%` on the joined username, and inclusive date bounds. -/
def sq_where (risk username : Option String) (start_date end_date : Option Nat)
    (r : Assessment × User) : Bool :=
  (match risk with | none => true | some x => r.1.risk_category == x) &&
  (match username with
   | none => true
   | some pat => chars_contain (lower_chars pat) (lower_chars r.2.username)) &&
  (match start_date with | none => true | some d => decide (d ≤ r.1.created_at)) &&
  (match end_date with | none => true | some d => decide (r.1.created_at ≤ d))

/-- The row dictionary built from a joined row (same shape as the MongoDB
`assessment_view`). -/
def sq_row_view (r : Assessment × User) : AssessmentView :=
  { id := r.1.id, user_id := r.1.user_id, username := r.2.username,
    features := feature_view r.1, probability := r.1.probability,
    risk_category := r.1.risk_category, created_at := r.1.created_at }

/-- Embedding of `get_predictions_paginated` (app_sqlite_old.py:261-343):
both the COUNT and the LIMIT/OFFSET slice run over the same conjunctive
WHERE clause. -/
def get_predictions_paginated (st : Option SqlStore) (page per_page : String)
    (risk username : Option String) (start_date end_date : Option Nat) :
    PaginatedResult :=
  match st with
  | none => ⟨[], 0⟩
  | some s =>
      let rows := (sq_join s).filter (sq_where risk username start_date end_date)
      let total := rows.length
      let pn := sq_parse_page_params page per_page
      let off := (pn.1 - 1) * pn.2
      ⟨((rows.drop off).take pn.2).map sq_row_view, total⟩

/-- Embedding of `get_predictions_filtered` (app_sqlite_old.py:346-409):
the same conjunctive WHERE clause, unpaginated. -/
def get_predictions_filtered (st : Option SqlStore)
    (risk username : Option String) (start_date end_date : Option Nat) :
    List AssessmentView :=
  match st with
  | none => []
  | some s =>
      ((sq_join s).filter (sq_where risk username start_date end_date)).map
        sq_row_view

/-! ### Specification-side definitions

These follow the words of the spec (conjunctive filter, 1-indexed page
slice) and are compared against the embedded query functions. -/

/-- The specification-side conjunctive filter over the MongoDB data: risk-category
equality AND case-insensitive username-substring match AND inclusive date
bounds. -/
def conj_matches (s : MongoStore) (risk username : Option String)
    (start_date end_date : Option Nat) (a : Assessment) : Bool :=
  matches_risk_date risk start_date end_date a &&
  username_keeps username (username_of s a.user_id)

/-- The specification-side 1-indexed page slice of an ordered result. -/
def page_slice (l : List AssessmentView) (page per_page : Nat) :
    List AssessmentView :=
  (l.drop ((page - 1) * per_page)).take per_page

/-- The specification-side ordered, conjunctively filtered doctor listing over the
MongoDB data. -/
def spec_filtered_views (s : MongoStore) (risk username : Option String)
    (start_date end_date : Option Nat) : List AssessmentView :=
  ((sort_created_desc
      (s.assessments.filter (conj_matches s risk username start_date end_date))).map
    (assessment_view s))

/-! ### Relational semantics of the doctor queries

Each call of `get_assessments_paginated` and `get_assessments_filtered`
issues its own `find(filter).sort(created_at, -1)` cursor, so each call
independently receives some admissible order of the matching documents
(`ValidSortOutput`); on equal timestamps two calls need not agree.  The
predicates below describe the set of outputs the program may produce:
the page slice and the export result for one arbitrary admissible order
each, with the same post-slice username filter as the code. -/

/-- The outputs the paginated query (after parameter parsing) may produce
for one page: slice some admissible order of the risk/date matches, then
apply the username post-filter. -/
def ValidPaginatedSlice (s : MongoStore) (page per_page : Nat)
    (risk uname : Option String) (sd ed : Option Nat)
    (out : List AssessmentView) : Prop :=
  ∃ ord, ValidSortOutput (s.assessments.filter (matches_risk_date risk sd ed)) ord ∧
    out = (((ord.drop ((page - 1) * per_page)).take per_page).map
        (assessment_view s)).filter (fun v => username_keeps uname v.username)

/-- The outputs the unpaginated export query may produce: some admissible
order of the risk/date matches, mapped and username-post-filtered. -/
def ValidFilteredResult (s : MongoStore) (risk uname : Option String)
    (sd ed : Option Nat) (out : List AssessmentView) : Prop :=
  ∃ ord, ValidSortOutput (s.assessments.filter (matches_risk_date risk sd ed)) ord ∧
    out = (ord.map (assessment_view s)).filter
      (fun v => username_keeps uname v.username)

/-! ### Concrete example data (used by counterexamples and witnesses) -/

/-- An assessment row with the given identifiers, probability, category and
timestamp; the eleven clinical feature fields are left empty (they play no
role in the filter/paginate/order claims). -/
def mk_assessment (id uid : Nat) (prob : ℚ) (cat : String) (ts : Nat) : Assessment :=
  { id := id, user_id := uid, age := none, anaemia := none,
    creatinine_phosphokinase := none, diabetes := none,
    ejection_fraction := none, high_blood_pressure := none, platelets := none,
    serum_creatinine := none, serum_sodium := none, sex := none,
    smoking := none, time := none, probability := prob, risk_category := cat,
    created_at := ts }

def alice : User :=
  { id := 1, username := "alice", email := "a@x.com",
    password_hash := generate_password_hash "secret1", role := "patient",
    created_at := 0 }

def bob : User :=
  { id := 2, username := "bob", email := "b@x.com",
    password_hash := generate_password_hash "secret2", role := "patient",
    created_at := 0 }

/-- Two patients, one HIGH assessment each (the alice row older than the bob row). -/
def demo_store : MongoStore :=
  { users := [alice, bob],
    assessments := [mk_assessment 1 1 1 "HIGH" 10,
                    mk_assessment 2 2 1 "HIGH" 20],
    patient_profiles := [1, 2], doctor_profiles := [],
    next_user_id := 3, next_assessment_id := 3 }

/-- A store with only alice registered (used for authentication examples). -/
def auth_store : MongoStore :=
  { users := [alice], assessments := [], patient_profiles := [1],
    doctor_profiles := [], next_user_id := 2, next_assessment_id := 1 }

/-- A SQLite store with only alice registered. -/
def demo_sql_store : SqlStore :=
  { users := [alice], predictions := [], next_user_id := 2,
    next_prediction_id := 1 }

/-- A SQLite store with alice and two of her predictions (distinct
timestamps). -/
def sq_history_store : SqlStore :=
  { users := [alice],
    predictions := [mk_assessment 1 1 1 "HIGH" 10, mk_assessment 2 1 0 "LOW" 20],
    next_user_id := 2, next_prediction_id := 3 }

/-- Two assessments by the same patient sharing one creation timestamp. -/
def tie_a : Assessment := mk_assessment 1 1 0 "LOW" 5

def tie_b : Assessment := mk_assessment 2 1 0 "LOW" 5

/-- A store holding the two equal-timestamp assessments `tie_a`, `tie_b`. -/
def tie_store : MongoStore :=
  { users := [alice], assessments := [tie_a, tie_b], patient_profiles := [1],
    doctor_profiles := [], next_user_id := 2, next_assessment_id := 3 }

/-! ### Helper lemmas -/

theorem sort_created_desc_perm (l : List Assessment) :
    (sort_created_desc l).Perm l :=
  List.perm_insertionSort created_desc l

theorem sort_created_desc_sorted (l : List Assessment) :
    SortedCreatedDesc (sort_created_desc l) :=
  List.sorted_insertionSort created_desc l

/-- Concatenating the 0-indexed `n`-sized slices `0, …, k-1` of a mapped and
filtered list reproduces the mapped and filtered prefix of length `k * n`. -/
theorem join_page_slices (v : Assessment → AssessmentView)
    (q : AssessmentView → Bool) (n : Nat) :
    ∀ (k : Nat) (l : List Assessment),
      ((List.range k).map
          (fun i => (((l.drop (i * n)).take n).map v).filter q)).flatten =
        ((l.take (k * n)).map v).filter q := by
  intro k
  induction k with
  | zero => intro l; simp
  | succ k ih =>
      intro l
      rw [List.range_succ, List.map_append, List.flatten_append, ih]
      simp only [List.map_cons, List.map_nil, List.flatten_cons,
        List.flatten_nil, List.append_nil]
      rw [Nat.succ_mul, List.take_add, List.map_append, List.filter_append]

/-- Two lists that are permutations of each other, both sorted by creation
timestamp descending, with pairwise-distinct timestamps, are equal. -/
theorem sorted_perm_nodup_unique :
    ∀ (l₁ l₂ : List Assessment), l₁.Perm l₂ → SortedCreatedDesc l₁ →
      SortedCreatedDesc l₂ → (l₁.map Assessment.created_at).Nodup → l₁ = l₂ := by
  intro l₁
  induction l₁ with
  | nil =>
      intro l₂ hp _ _ _
      exact (hp.symm.eq_nil).symm
  | cons a t ih =>
      intro l₂ hp hs₁ hs₂ hnd
      cases l₂ with
      | nil => exact (List.cons_ne_nil a t hp.eq_nil).elim
      | cons b t₂ =>
          obtain ⟨ha₁, hpt⟩ := List.pairwise_cons.mp hs₁
          obtain ⟨hb₂, hpt₂⟩ := List.pairwise_cons.mp hs₂
          have hndc : (∀ x ∈ t, ¬x.created_at = a.created_at) ∧
              (t.map Assessment.created_at).Nodup := by simpa using hnd
          have hab : a = b := by
            by_cases h : a = b
            · exact h
            · have hamem : a ∈ b :: t₂ := hp.subset (List.mem_cons_self a t)
              have hat₂ : a ∈ t₂ := by
                rcases List.mem_cons.mp hamem with h' | h'
                · exact (h h').elim
                · exact h'
              have hbmem : b ∈ a :: t := hp.symm.subset (List.mem_cons_self b t₂)
              have hbt : b ∈ t := by
                rcases List.mem_cons.mp hbmem with h' | h'
                · exact (h h'.symm).elim
                · exact h'
              have h1 : a.created_at ≤ b.created_at := hb₂ a hat₂
              have h2 : b.created_at ≤ a.created_at := ha₁ b hbt
              have heq : b.created_at = a.created_at := Nat.le_antisymm h2 h1
              exact absurd heq (hndc.1 b hbt)
          subst hab
          have hpt' : t.Perm t₂ := hp.cons_inv
          exact congrArg (a :: ·) (ih t₂ hpt' hpt hpt₂ hndc.2)

/-! ### Claim theorems -/

/-- C1: for every probability p in [0,1], the risk category is LOW iff
p < 0.33, MEDIUM iff 0.33 ≤ p < 0.67, HIGH iff p ≥ 0.67; the boundary
0.33 maps to MEDIUM and 0.67 maps to HIGH. -/
theorem risk_category_thresholds (p : ℚ) (h0 : 0 ≤ p) (h1 : p ≤ 1) :
    ((get_risk_category p).1 = "LOW" ↔ p < 33/100) ∧
    ((get_risk_category p).1 = "MEDIUM" ↔ (33/100 ≤ p ∧ p < 67/100)) ∧
    ((get_risk_category p).1 = "HIGH" ↔ 67/100 ≤ p) ∧
    (get_risk_category (33/100)).1 = "MEDIUM" ∧
    (get_risk_category (67/100)).1 = "HIGH" := by
  refine ⟨?_, ?_, ?_, by norm_num [get_risk_category], by norm_num [get_risk_category]⟩ <;>
    unfold get_risk_category <;> split_ifs with ha hb
  · exact iff_of_true rfl ha
  · exact iff_of_false (by decide) ha
  · exact iff_of_false (by decide) ha
  · exact iff_of_false (by decide) (fun hc => absurd ha (not_lt.mpr hc.1))
  · exact iff_of_true rfl ⟨not_lt.mp ha, hb⟩
  · exact iff_of_false (by decide) (fun hc => hb hc.2)
  · exact iff_of_false (by decide)
      (fun hc => absurd ha (not_lt.mpr (le_trans (by norm_num) hc)))
  · exact iff_of_false (by decide) (fun hc => absurd hb (not_lt.mpr hc))
  · exact iff_of_true rfl (not_lt.mp hb)

/-- Witness for `risk_category_thresholds` at the concrete boundary
probability 0.33. -/
theorem risk_category_thresholds_witness :
    (get_risk_category (33/100)).1 = "MEDIUM" :=
  (risk_category_thresholds (33/100) (by norm_num) (by norm_num)).2.2.2.1

/-- C4 counterexample: the queries request only `created_at` descending, so
for two rows sharing one timestamp (`tie_a` inserted before `tie_b`, with
ascending ids 1 and 2) the output listing `tie_b` first is an admissible
query result, yet it violates the asserted ascending-internal-id tie-break.
The claimed deterministic ordering is therefore not guaranteed by the code. -/
theorem query_order_counterexample :
    ValidSortOutput [tie_a, tie_b] [tie_b, tie_a] ∧
      ¬ TieBreakAscendingId [tie_b, tie_a] := by
  unfold ValidSortOutput SortedCreatedDesc TieBreakAscendingId
  refine ⟨⟨by decide, by decide⟩, by decide⟩

/-- C4 amended: every multi-row assessment query orders by creation
timestamp descending (the canonical embedded order is an admissible output),
but no secondary sort key is requested, so the relative order of rows with
identical timestamps is unspecified; the query result — and hence
pagination — is uniquely determined exactly when the creation timestamps
are pairwise distinct. -/
theorem query_order_amended :
    (∀ docs, ValidSortOutput docs (sort_created_desc docs)) ∧
    (∀ docs out₁ out₂, ValidSortOutput docs out₁ → ValidSortOutput docs out₂ →
      (docs.map Assessment.created_at).Nodup → out₁ = out₂) := by
  constructor
  · intro docs
    exact ⟨(sort_created_desc_perm docs).symm, sort_created_desc_sorted docs⟩
  · intro docs o₁ o₂ h₁ h₂ hnd
    have hp : o₁.Perm o₂ := h₁.1.symm.trans h₂.1
    have hnd₁ : (o₁.map Assessment.created_at).Nodup :=
      ((h₁.1.map Assessment.created_at).nodup_iff).mp hnd
    exact sorted_perm_nodup_unique o₁ o₂ hp h₁.2 h₂.2 hnd₁

/-- Witness for `query_order_amended`: on the two demo assessments with
distinct timestamps 10 and 20, every admissible query output equals the
canonical sorted order (newest first). -/
theorem query_order_amended_witness :
    [mk_assessment 2 2 1 "HIGH" 20, mk_assessment 1 1 1 "HIGH" 10] =
      sort_created_desc demo_store.assessments :=
  query_order_amended.2 demo_store.assessments
    [mk_assessment 2 2 1 "HIGH" 20, mk_assessment 1 1 1 "HIGH" 10]
    (sort_created_desc demo_store.assessments)
    ⟨by decide, by unfold SortedCreatedDesc; decide⟩
    (query_order_amended.1 demo_store.assessments)
    (by decide)

/-- C2 counterexample: with a username filter, the MongoDB paginated
listing counts rows that match only the risk/date filter (total = 2 although
exactly one stored row has a username containing "alice"), and a page can
come back empty although conjunctively matching rows exist (the newer bob
assessment fills the one-row page and is then discarded by the username
post-filter). -/
theorem doctor_listing_filters_counterexample :
    (get_assessments_paginated (some demo_store) "1" "10" none (some "alice")
        none none).total = 2 ∧
    (demo_store.assessments.filter
        (conj_matches demo_store none (some "alice") none none)).length = 1 ∧
    (get_assessments_paginated (some demo_store) "1" "10" none (some "alice")
        none none).total ≠
      (demo_store.assessments.filter
          (conj_matches demo_store none (some "alice") none none)).length ∧
    (get_assessments_paginated (some demo_store) "1" "1" none (some "alice")
        none none).assessments = [] ∧
    page_slice
        ((sort_created_desc (demo_store.assessments.filter
            (conj_matches demo_store none (some "alice") none none))).map
          (assessment_view demo_store)) 1 1 ≠ [] := by
  refine ⟨by decide, by decide, by decide, by decide, by decide⟩

/-- C2 amended: the SQLite variant (`get_predictions_paginated`) applies
all supplied filters as one conjunctive WHERE clause, with `total` the exact
count of conjunctively matching rows and the returned slice the requested
page of that ordered result.  The MongoDB variant does so only for the
risk-category and date filters: its `total` counts rows matching risk/date
alone, and its slice is the username-filtered image of the risk/date page;
when no username filter is supplied, the original conjunctive property
holds for it as well. -/
theorem doctor_listing_filters_amended :
    (∀ (s : MongoStore) (page per_page : String) (risk : Option String)
        (sd ed : Option Nat),
      get_assessments_paginated (some s) page per_page risk none sd ed =
        ⟨page_slice (spec_filtered_views s risk none sd ed)
            (parse_page_params page per_page).1 (parse_page_params page per_page).2,
          (s.assessments.filter (conj_matches s risk none sd ed)).length⟩) ∧
    (∀ (s : MongoStore) (page per_page : String) (risk uname : Option String)
        (sd ed : Option Nat),
      (get_assessments_paginated (some s) page per_page risk uname sd ed).total =
          (s.assessments.filter (matches_risk_date risk sd ed)).length ∧
      (get_assessments_paginated (some s) page per_page risk uname sd ed).assessments =
        (page_slice
            ((sort_created_desc
                (s.assessments.filter (matches_risk_date risk sd ed))).map
              (assessment_view s))
            (parse_page_params page per_page).1
            (parse_page_params page per_page).2).filter
          (fun v => username_keeps uname v.username)) ∧
    (∀ (s : SqlStore) (page per_page : String) (risk uname : Option String)
        (sd ed : Option Nat),
      (get_predictions_paginated (some s) page per_page risk uname sd ed).total =
          ((sq_join s).filter (sq_where risk uname sd ed)).length ∧
      (get_predictions_paginated (some s) page per_page risk uname sd ed).assessments =
        page_slice (get_predictions_filtered (some s) risk uname sd ed)
          (sq_parse_page_params page per_page).1
          (sq_parse_page_params page per_page).2) := by
  refine ⟨?_, ?_, ?_⟩
  · intro s page per_page risk sd ed
    have hconj : conj_matches s risk none sd ed = matches_risk_date risk sd ed := by
      funext a
      simp [conj_matches, username_keeps]
    unfold get_assessments_paginated get_assessments_paginated_core page_slice
      spec_filtered_views
    rw [hconj]
    simp only [username_keeps, List.filter_true, List.map_take, List.map_drop]
  · intro s page per_page risk uname sd ed
    refine ⟨rfl, ?_⟩
    simp only [get_assessments_paginated, get_assessments_paginated_core,
      page_slice, List.map_take, List.map_drop]
  · intro s page per_page risk uname sd ed
    refine ⟨rfl, ?_⟩
    simp only [get_predictions_paginated, get_predictions_filtered, page_slice,
      List.map_take, List.map_drop]

/-- Helper: over the canonical order, concatenating pages 1, …, k of the
paginated core (k covering the risk/date-filtered set) equals the export
query result.  This is a fact about the single canonical refinement; the
C3 theorems below quantify over the admissible orders instead. -/
theorem canonical_pagination_concat (s : MongoStore) (risk uname : Option String)
    (sd ed : Option Nat) (n k : Nat)
    (hk : (s.assessments.filter (matches_risk_date risk sd ed)).length ≤ k * n) :
    ((List.range k).map
        (fun i => (get_assessments_paginated_core s (i + 1) n risk uname sd ed).1)).flatten =
      get_assessments_filtered (some s) risk uname sd ed := by
  unfold get_assessments_paginated_core get_assessments_filtered
  simp only [Nat.add_sub_cancel]
  rw [join_page_slices (assessment_view s) (fun v => username_keeps uname v.username) n k]
  rw [List.take_of_length_le (le_trans (le_of_eq (sort_created_desc_perm _).length_eq) hk)]

/-- C3 counterexample: each page and the export run as separate
`sort(created_at, -1)` queries, and on equal timestamps each may receive a
different admissible order.  On the two equal-timestamp rows of
`tie_store` with page size 1, page 1 (under one admissible order) and
page 2 (under the other) both return the `tie_a` row, while the export
returns both rows — so an admissible execution concatenates to a list
with a duplicate and an omission, refuting the unconditional claim. -/
theorem pagination_matches_export_counterexample :
    ValidPaginatedSlice tie_store 1 1 none none none none
      [assessment_view tie_store tie_a] ∧
    ValidPaginatedSlice tie_store 2 1 none none none none
      [assessment_view tie_store tie_a] ∧
    ValidFilteredResult tie_store none none none none
      [assessment_view tie_store tie_a, assessment_view tie_store tie_b] ∧
    [assessment_view tie_store tie_a] ++ [assessment_view tie_store tie_a] ≠
      [assessment_view tie_store tie_a, assessment_view tie_store tie_b] := by
  refine ⟨⟨[tie_a, tie_b], ⟨by decide, by unfold SortedCreatedDesc; decide⟩, by decide⟩,
    ⟨[tie_b, tie_a], ⟨by decide, by unfold SortedCreatedDesc; decide⟩, by decide⟩,
    ⟨[tie_a, tie_b], ⟨by decide, by unfold SortedCreatedDesc; decide⟩, by decide⟩,
    by decide⟩

/-- C3 amended: the embedded paginated core and export query each produce
an admissible output of the relational query contract; and whenever the
creation timestamps of the risk/date-filtered rows are pairwise distinct
(so the sort-only order is uniquely determined), every admissible
execution of pages 1, …, k at a fixed page size (k·pageSize covering the
filtered set, no concurrent writes) concatenates to exactly the admissible
export result — same rows, same order, no duplicates or omissions.  With
equal timestamps the per-query tie order is unspecified and the
equivalence can fail, as the counterexample shows. -/
theorem pagination_matches_export_amended :
    (∀ (s : MongoStore) (page per_page : Nat) (risk uname : Option String)
        (sd ed : Option Nat),
      ValidPaginatedSlice s page per_page risk uname sd ed
        (get_assessments_paginated_core s page per_page risk uname sd ed).1) ∧
    (∀ (s : MongoStore) (risk uname : Option String) (sd ed : Option Nat),
      ValidFilteredResult s risk uname sd ed
        (get_assessments_filtered (some s) risk uname sd ed)) ∧
    (∀ (s : MongoStore) (risk uname : Option String) (sd ed : Option Nat)
        (n k : Nat) (pages : Nat → List AssessmentView)
        (exportOut : List AssessmentView),
      ((s.assessments.filter (matches_risk_date risk sd ed)).map
          Assessment.created_at).Nodup →
      (∀ i, i < k → ValidPaginatedSlice s (i + 1) n risk uname sd ed (pages i)) →
      ValidFilteredResult s risk uname sd ed exportOut →
      (s.assessments.filter (matches_risk_date risk sd ed)).length ≤ k * n →
      ((List.range k).map pages).flatten = exportOut) := by
  refine ⟨?_, ?_, ?_⟩
  · intro s page per_page risk uname sd ed
    exact ⟨sort_created_desc _,
      ⟨(sort_created_desc_perm _).symm, sort_created_desc_sorted _⟩, rfl⟩
  · intro s risk uname sd ed
    exact ⟨sort_created_desc _,
      ⟨(sort_created_desc_perm _).symm, sort_created_desc_sorted _⟩, rfl⟩
  · intro s risk uname sd ed n k pages exportOut hnd hpages hexp hlen
    have hcan : ∀ ord,
        ValidSortOutput (s.assessments.filter (matches_risk_date risk sd ed)) ord →
        ord = sort_created_desc (s.assessments.filter (matches_risk_date risk sd ed)) := by
      intro ord hord
      exact sorted_perm_nodup_unique ord _
        (hord.1.symm.trans (sort_created_desc_perm _).symm) hord.2
        (sort_created_desc_sorted _)
        ((hord.1.map Assessment.created_at).nodup_iff.mp hnd)
    obtain ⟨orde, horde, heqe⟩ := hexp
    have hpg : ∀ i ∈ List.range k, pages i =
        (get_assessments_paginated_core s (i + 1) n risk uname sd ed).1 := by
      intro i hi
      obtain ⟨ord, hord, heq⟩ := hpages i (List.mem_range.mp hi)
      rw [heq, hcan ord hord]
      rfl
    rw [List.map_congr_left hpg, heqe, hcan orde horde]
    exact canonical_pagination_concat s risk uname sd ed n k hlen

/-- Witness for `pagination_matches_export_amended`: on the demo store
(distinct timestamps 10 and 20), page size 1 and two pages of the embedded
listing concatenate to the embedded export result. -/
theorem pagination_matches_export_amended_witness :
    ((List.range 2).map
        (fun i => (get_assessments_paginated_core demo_store (i + 1) 1 none none
            none none).1)).flatten =
      get_assessments_filtered (some demo_store) none none none none :=
  pagination_matches_export_amended.2.2 demo_store none none none none 1 2
    (fun i => (get_assessments_paginated_core demo_store (i + 1) 1 none none
        none none).1)
    (get_assessments_filtered (some demo_store) none none none none)
    (by decide)
    (fun i _ => pagination_matches_export_amended.1 demo_store (i + 1) 1 none
        none none none)
    (pagination_matches_export_amended.2.1 demo_store none none none none)
    (by decide)

/-- C5 counterexample: a supplied pageSize of "0" is an invalid page size
(the SQLite variant itself resets values below 1 to the default 10), yet
the MongoDB listing does not fall back to the default pageSize 10: it clamps
to 1, returning a 1-row slice where the defaults would return both rows. -/
theorem pagination_params_counterexample :
    parse_page_params "1" "0" = (1, 1) ∧
    parse_page_params "1" "0" ≠ (1, 10) ∧
    (get_assessments_paginated (some demo_store) "1" "0" none none
        none none).assessments.length = 1 ∧
    (get_assessments_paginated (some demo_store) "1" "10" none none
        none none).assessments.length = 2 := by
  refine ⟨by decide, by decide, by decide, by decide⟩

/-- C5 amended: page numbers are 1-indexed and non-numeric page or pageSize
values fall back to the defaults (1, 10) in both variants; numeric values
below 1 are not given the default pageSize in the MongoDB variant: both page
and pageSize are clamped to 1 there, while the SQLite variant clamps page to
1 and resets pageSize below 1 to the default 10.  A page past the last
matching row yields an empty slice, not an error. -/
theorem pagination_params_amended :
    (∀ page per_page : String, py_int page = none ∨ py_int per_page = none →
      parse_page_params page per_page = (1, 10) ∧
      sq_parse_page_params page per_page = (1, 10)) ∧
    (∀ (page per_page : String) (p n : Int), py_int page = some p →
      py_int per_page = some n →
      (p < 1 → (parse_page_params page per_page).1 = 1 ∧
        (sq_parse_page_params page per_page).1 = 1) ∧
      (n < 1 → (parse_page_params page per_page).2 = 1 ∧
        (sq_parse_page_params page per_page).2 = 10)) ∧
    (∀ (s : MongoStore) (page per_page : String) (risk uname : Option String)
        (sd ed : Option Nat),
      (s.assessments.filter (matches_risk_date risk sd ed)).length ≤
          ((parse_page_params page per_page).1 - 1) *
            (parse_page_params page per_page).2 →
      (get_assessments_paginated (some s) page per_page risk uname sd ed).assessments
        = []) ∧
    (∀ (s : SqlStore) (page per_page : String) (risk uname : Option String)
        (sd ed : Option Nat),
      ((sq_join s).filter (sq_where risk uname sd ed)).length ≤
          ((sq_parse_page_params page per_page).1 - 1) *
            (sq_parse_page_params page per_page).2 →
      (get_predictions_paginated (some s) page per_page risk uname sd ed).assessments
        = []) := by
  refine ⟨?_, ?_, ?_, ?_⟩
  · intro page per_page h
    unfold parse_page_params sq_parse_page_params
    rcases h with h | h
    · rw [h]; exact ⟨rfl, rfl⟩
    · rw [h]
      cases py_int page <;> exact ⟨rfl, rfl⟩
  · intro page per_page p n hp hn
    unfold parse_page_params sq_parse_page_params
    rw [hp, hn]
    constructor
    · intro h1
      have hmax : max 1 p = 1 := max_eq_left (le_of_lt h1)
      have hif : (if p < 1 then (1 : Int) else p) = 1 := if_pos h1
      simp only [hmax, hif]
      exact ⟨rfl, rfl⟩
    · intro h1
      have hmax : max 1 n = 1 := max_eq_left (le_of_lt h1)
      have hif : (if n < 1 then (10 : Int) else n) = 10 := if_pos h1
      simp only [hmax, hif]
      exact ⟨rfl, rfl⟩
  · intro s page per_page risk uname sd ed h
    have hdrop : (sort_created_desc
        (s.assessments.filter (matches_risk_date risk sd ed))).drop
          (((parse_page_params page per_page).1 - 1) *
            (parse_page_params page per_page).2) = [] :=
      List.drop_eq_nil_of_le
        (le_trans (le_of_eq (sort_created_desc_perm _).length_eq) h)
    simp only [get_assessments_paginated, get_assessments_paginated_core, hdrop,
      List.take_nil, List.map_nil, List.filter_nil]
  · intro s page per_page risk uname sd ed h
    have hdrop : ((sq_join s).filter (sq_where risk uname sd ed)).drop
          (((sq_parse_page_params page per_page).1 - 1) *
            (sq_parse_page_params page per_page).2) = [] :=
      List.drop_eq_nil_of_le h
    simp only [get_predictions_paginated, hdrop, List.take_nil, List.map_nil]

/-- Witness for `pagination_params_amended`: non-numeric parameters fall
back to the defaults, "0" clamps as described, and requesting page 5 of the
two-row stores yields an empty slice in both variants. -/
theorem pagination_params_amended_witness :
    parse_page_params "abc" "7" = (1, 10) ∧
    (parse_page_params "1" "0").2 = 1 ∧
    (sq_parse_page_params "1" "0").2 = 10 ∧
    (get_assessments_paginated (some demo_store) "5" "10" none none
        none none).assessments = [] ∧
    (get_predictions_paginated (some sq_history_store) "5" "10" none none
        none none).assessments = [] :=
  ⟨(pagination_params_amended.1 "abc" "7" (Or.inl (by decide))).1,
   ((pagination_params_amended.2.1 "1" "0" 1 0 (by decide) (by decide)).2
     (by decide)).1,
   ((pagination_params_amended.2.1 "1" "0" 1 0 (by decide) (by decide)).2
     (by decide)).2,
   pagination_params_amended.2.2.1 demo_store "5" "10" none none none none
     (by decide),
   pagination_params_amended.2.2.2 sq_history_store "5" "10" none none none none
     (by decide)⟩

/-- Any of the five failure conditions makes the MongoDB `register_user`
return failure and leave the store unchanged. -/
theorem register_user_fail_conditions (s : MongoStore) (u e pw r : String)
    (now : Nat)
    (h : u.length < 3 ∨ pw.length < 6 ∨ (r ≠ "patient" ∧ r ≠ "doctor") ∨
      (∃ x ∈ s.users, x.username = u) ∨ (∃ x ∈ s.users, x.email = e)) :
    (register_user (some s) u e pw r now).1.1 = false ∧
    (register_user (some s) u e pw r now).2 = some s := by
  by_cases h1 : u.length < 3
  · unfold register_user; rw [if_pos h1]; exact ⟨rfl, rfl⟩
  by_cases h2 : pw.length < 6
  · unfold register_user; rw [if_neg h1, if_pos h2]; exact ⟨rfl, rfl⟩
  by_cases h3 : (r != "patient" && r != "doctor") = true
  · unfold register_user; rw [if_neg h1, if_neg h2, if_pos h3]; exact ⟨rfl, rfl⟩
  by_cases h4 : s.users.any (fun x => x.username == u) = true
  · unfold register_user
    rw [if_neg h1, if_neg h2, if_neg h3]
    dsimp only
    rw [if_pos h4]
    exact ⟨rfl, rfl⟩
  by_cases h5 : s.users.any (fun x => x.email == e) = true
  · unfold register_user
    rw [if_neg h1, if_neg h2, if_neg h3]
    dsimp only
    rw [if_neg h4, if_pos h5]
    exact ⟨rfl, rfl⟩
  exfalso
  simp only [Bool.and_eq_true, bne_iff_ne, ne_eq] at h3
  simp only [List.any_eq_true, beq_iff_eq] at h4 h5
  rcases h with hc | hc | hc | hc | hc
  · exact h1 hc
  · exact h2 hc
  · exact h3 ⟨hc.1, hc.2⟩
  · exact h4 hc
  · exact h5 hc

/-- Any of the four failure conditions (no email check) makes the SQLite
`register_user` of `app_v2.py` return failure and leave the store
unchanged. -/
theorem v2_register_user_fail_conditions (s : SqlStore) (u e pw r : String)
    (now : Nat)
    (h : u.length < 3 ∨ pw.length < 6 ∨ (r ≠ "patient" ∧ r ≠ "doctor") ∨
      (∃ x ∈ s.users, x.username = u)) :
    (v2_register_user (some s) u e pw r now).1.1 = false ∧
    (v2_register_user (some s) u e pw r now).2 = some s := by
  by_cases h1 : u.length < 3
  · unfold v2_register_user; rw [if_pos h1]; exact ⟨rfl, rfl⟩
  by_cases h2 : pw.length < 6
  · unfold v2_register_user; rw [if_neg h1, if_pos h2]; exact ⟨rfl, rfl⟩
  by_cases h3 : (r != "patient" && r != "doctor") = true
  · unfold v2_register_user; rw [if_neg h1, if_neg h2, if_pos h3]; exact ⟨rfl, rfl⟩
  by_cases h4 : s.users.any (fun x => x.username == u) = true
  · unfold v2_register_user
    rw [if_neg h1, if_neg h2, if_neg h3]
    dsimp only
    rw [if_pos h4]
    exact ⟨rfl, rfl⟩
  exfalso
  simp only [Bool.and_eq_true, bne_iff_ne, ne_eq] at h3
  simp only [List.any_eq_true, beq_iff_eq] at h4
  rcases h with hc | hc | hc | hc
  · exact h1 hc
  · exact h2 hc
  · exact h3 ⟨hc.1, hc.2⟩
  · exact h4 hc

/-- A successful MongoDB registration implies the username was fresh, and
the resulting store contains it. -/
theorem register_user_success_facts (s : MongoStore) (u e pw r : String)
    (now : Nat) (hs : (register_user (some s) u e pw r now).1.1 = true) :
    (∀ x ∈ s.users, x.username ≠ u) ∧
    ∃ s', (register_user (some s) u e pw r now).2 = some s' ∧
      ∃ x ∈ s'.users, x.username = u := by
  by_cases h1 : u.length < 3
  · unfold register_user at hs; rw [if_pos h1] at hs; simp at hs
  by_cases h2 : pw.length < 6
  · unfold register_user at hs; rw [if_neg h1, if_pos h2] at hs; simp at hs
  by_cases h3 : (r != "patient" && r != "doctor") = true
  · unfold register_user at hs; rw [if_neg h1, if_neg h2, if_pos h3] at hs
    simp at hs
  by_cases h4 : s.users.any (fun x => x.username == u) = true
  · unfold register_user at hs
    rw [if_neg h1, if_neg h2, if_neg h3] at hs
    dsimp only at hs
    rw [if_pos h4] at hs
    simp at hs
  by_cases h5 : s.users.any (fun x => x.email == e) = true
  · unfold register_user at hs
    rw [if_neg h1, if_neg h2, if_neg h3] at hs
    dsimp only at hs
    rw [if_neg h4, if_pos h5] at hs
    simp at hs
  constructor
  · intro x hx hn
    simp only [List.any_eq_true, beq_iff_eq] at h4
    exact h4 ⟨x, hx, hn⟩
  · have hev : (register_user (some s) u e pw r now).2 = some
        { s with
          users := s.users ++ [⟨s.next_user_id, u, e, generate_password_hash pw, r, now⟩]
          next_user_id := s.next_user_id + 1
          patient_profiles :=
            if r == "patient" then s.patient_profiles ++ [s.next_user_id]
            else s.patient_profiles
          doctor_profiles :=
            if r == "doctor" then s.doctor_profiles ++ [s.next_user_id]
            else s.doctor_profiles } := by
      unfold register_user
      rw [if_neg h1, if_neg h2, if_neg h3]
      dsimp only
      rw [if_neg h4, if_neg h5]
    exact ⟨_, hev,
      ⟨⟨s.next_user_id, u, e, generate_password_hash pw, r, now⟩, by simp, rfl⟩⟩

/-- `register_user` preserves uniqueness of stored usernames. -/
theorem register_user_preserves_nodup (s : MongoStore) (u e pw r : String)
    (now : Nat) (s' : MongoStore)
    (hst : (register_user (some s) u e pw r now).2 = some s')
    (hnd : (s.users.map User.username).Nodup) :
    (s'.users.map User.username).Nodup := by
  by_cases h1 : u.length < 3
  · unfold register_user at hst; rw [if_pos h1] at hst
    cases hst; exact hnd
  by_cases h2 : pw.length < 6
  · unfold register_user at hst; rw [if_neg h1, if_pos h2] at hst
    cases hst; exact hnd
  by_cases h3 : (r != "patient" && r != "doctor") = true
  · unfold register_user at hst; rw [if_neg h1, if_neg h2, if_pos h3] at hst
    cases hst; exact hnd
  by_cases h4 : s.users.any (fun x => x.username == u) = true
  · unfold register_user at hst
    rw [if_neg h1, if_neg h2, if_neg h3] at hst
    dsimp only at hst
    rw [if_pos h4] at hst
    cases hst; exact hnd
  by_cases h5 : s.users.any (fun x => x.email == e) = true
  · unfold register_user at hst
    rw [if_neg h1, if_neg h2, if_neg h3] at hst
    dsimp only at hst
    rw [if_neg h4, if_pos h5] at hst
    cases hst; exact hnd
  unfold register_user at hst
  rw [if_neg h1, if_neg h2, if_neg h3] at hst
  dsimp only at hst
  rw [if_neg h4, if_neg h5] at hst
  cases hst
  simp only [List.any_eq_true, beq_iff_eq] at h4
  simp only [List.map_append, List.map_cons, List.map_nil]
  rw [List.nodup_append]
  refine ⟨hnd, List.nodup_singleton u, ?_⟩
  intro a ha hb
  have hau : a = u := by simpa using hb
  subst hau
  obtain ⟨x, hx, hxu⟩ := List.mem_map.mp ha
  exact h4 ⟨x, hx, hxu⟩

/-- A successful SQLite (`app_v2.py`) registration implies the username was
fresh, and the resulting store contains it. -/
theorem v2_register_user_success_facts (s : SqlStore) (u e pw r : String)
    (now : Nat) (hs : (v2_register_user (some s) u e pw r now).1.1 = true) :
    (∀ x ∈ s.users, x.username ≠ u) ∧
    ∃ s', (v2_register_user (some s) u e pw r now).2 = some s' ∧
      ∃ x ∈ s'.users, x.username = u := by
  by_cases h1 : u.length < 3
  · unfold v2_register_user at hs; rw [if_pos h1] at hs; simp at hs
  by_cases h2 : pw.length < 6
  · unfold v2_register_user at hs; rw [if_neg h1, if_pos h2] at hs; simp at hs
  by_cases h3 : (r != "patient" && r != "doctor") = true
  · unfold v2_register_user at hs; rw [if_neg h1, if_neg h2, if_pos h3] at hs
    simp at hs
  by_cases h4 : s.users.any (fun x => x.username == u) = true
  · unfold v2_register_user at hs
    rw [if_neg h1, if_neg h2, if_neg h3] at hs
    dsimp only at hs
    rw [if_pos h4] at hs
    simp at hs
  constructor
  · intro x hx hn
    simp only [List.any_eq_true, beq_iff_eq] at h4
    exact h4 ⟨x, hx, hn⟩
  · have hev : (v2_register_user (some s) u e pw r now).2 = some
        { s with
          users := s.users ++ [⟨s.next_user_id, u, e, generate_password_hash pw, r, now⟩]
          next_user_id := s.next_user_id + 1 } := by
      unfold v2_register_user
      rw [if_neg h1, if_neg h2, if_neg h3]
      dsimp only
      rw [if_neg h4]
    exact ⟨_, hev,
      ⟨⟨s.next_user_id, u, e, generate_password_hash pw, r, now⟩, by simp, rfl⟩⟩

/-- The SQLite `register_user` of `app_v2.py` preserves uniqueness of
stored usernames. -/
theorem v2_register_user_preserves_nodup (s : SqlStore) (u e pw r : String)
    (now : Nat) (s' : SqlStore)
    (hst : (v2_register_user (some s) u e pw r now).2 = some s')
    (hnd : (s.users.map User.username).Nodup) :
    (s'.users.map User.username).Nodup := by
  by_cases h1 : u.length < 3
  · unfold v2_register_user at hst; rw [if_pos h1] at hst
    cases hst; exact hnd
  by_cases h2 : pw.length < 6
  · unfold v2_register_user at hst; rw [if_neg h1, if_pos h2] at hst
    cases hst; exact hnd
  by_cases h3 : (r != "patient" && r != "doctor") = true
  · unfold v2_register_user at hst; rw [if_neg h1, if_neg h2, if_pos h3] at hst
    cases hst; exact hnd
  by_cases h4 : s.users.any (fun x => x.username == u) = true
  · unfold v2_register_user at hst
    rw [if_neg h1, if_neg h2, if_neg h3] at hst
    dsimp only at hst
    rw [if_pos h4] at hst
    cases hst; exact hnd
  unfold v2_register_user at hst
  rw [if_neg h1, if_neg h2, if_neg h3] at hst
  dsimp only at hst
  rw [if_neg h4] at hst
  cases hst
  simp only [List.any_eq_true, beq_iff_eq] at h4
  simp only [List.map_append, List.map_cons, List.map_nil]
  rw [List.nodup_append]
  refine ⟨hnd, List.nodup_singleton u, ?_⟩
  intro a ha hb
  have hau : a = u := by simpa using hb
  subst hau
  obtain ⟨x, hx, hxu⟩ := List.mem_map.mp ha
  exact h4 ⟨x, hx, hxu⟩

/-- C6 counterexample: in the SQLite multi-role variant (`app_v2.py`),
registering a fresh username with an email already held by alice succeeds —
no email-uniqueness check or constraint exists there, so the claim that
registration fails whenever the email duplicates that of an existing user does
not hold for that variant. -/
theorem registration_validation_counterexample :
    (v2_register_user (some demo_sql_store) "bobby" "a@x.com" "secret1"
        "patient" 1).1.1 = true ∧
    (∃ x ∈ demo_sql_store.users, x.email = "a@x.com") := by
  exact ⟨by decide, ⟨alice, by decide, by decide⟩⟩

/-- C6 amended: in the MongoDB variant registration fails (with the store
unchanged) whenever the username is shorter than 3, the password shorter
than 6, the role outside {patient, doctor}, or the username or email
duplicates that of an existing user; the SQLite variant (`app_v2.py`) enforces
the same conditions except email uniqueness.  In both variants a
successful registration implies the username was fresh and is stored, any
later registration of the same username fails, and username uniqueness of
the store is preserved. -/
theorem registration_validation_amended :
    (∀ (s : MongoStore) (u e pw r : String) (now : Nat),
      (u.length < 3 ∨ pw.length < 6 ∨ (r ≠ "patient" ∧ r ≠ "doctor") ∨
        (∃ x ∈ s.users, x.username = u) ∨ (∃ x ∈ s.users, x.email = e)) →
      (register_user (some s) u e pw r now).1.1 = false ∧
      (register_user (some s) u e pw r now).2 = some s) ∧
    (∀ (s : SqlStore) (u e pw r : String) (now : Nat),
      (u.length < 3 ∨ pw.length < 6 ∨ (r ≠ "patient" ∧ r ≠ "doctor") ∨
        (∃ x ∈ s.users, x.username = u)) →
      (v2_register_user (some s) u e pw r now).1.1 = false ∧
      (v2_register_user (some s) u e pw r now).2 = some s) ∧
    (∀ (s : MongoStore) (u e pw r : String) (now : Nat),
      (register_user (some s) u e pw r now).1.1 = true →
      (∀ x ∈ s.users, x.username ≠ u) ∧
      ∃ s', (register_user (some s) u e pw r now).2 = some s' ∧
        ∃ x ∈ s'.users, x.username = u) ∧
    (∀ (s s' : MongoStore) (u e pw r : String) (now : Nat)
        (e2 pw2 r2 : String) (now2 : Nat),
      (register_user (some s) u e pw r now).1.1 = true →
      (register_user (some s) u e pw r now).2 = some s' →
      (register_user (some s') u e2 pw2 r2 now2).1.1 = false) ∧
    (∀ (s : MongoStore) (u e pw r : String) (now : Nat) (s' : MongoStore),
      (register_user (some s) u e pw r now).2 = some s' →
      (s.users.map User.username).Nodup → (s'.users.map User.username).Nodup) ∧
    (∀ (s : SqlStore) (u e pw r : String) (now : Nat),
      (v2_register_user (some s) u e pw r now).1.1 = true →
      (∀ x ∈ s.users, x.username ≠ u) ∧
      ∃ s', (v2_register_user (some s) u e pw r now).2 = some s' ∧
        ∃ x ∈ s'.users, x.username = u) ∧
    (∀ (s s' : SqlStore) (u e pw r : String) (now : Nat)
        (e2 pw2 r2 : String) (now2 : Nat),
      (v2_register_user (some s) u e pw r now).1.1 = true →
      (v2_register_user (some s) u e pw r now).2 = some s' →
      (v2_register_user (some s') u e2 pw2 r2 now2).1.1 = false) ∧
    (∀ (s : SqlStore) (u e pw r : String) (now : Nat) (s' : SqlStore),
      (v2_register_user (some s) u e pw r now).2 = some s' →
      (s.users.map User.username).Nodup → (s'.users.map User.username).Nodup) := by
  refine ⟨register_user_fail_conditions, v2_register_user_fail_conditions,
    register_user_success_facts, ?_, register_user_preserves_nodup,
    v2_register_user_success_facts, ?_, v2_register_user_preserves_nodup⟩
  · intro s s' u e pw r now e2 pw2 r2 now2 hs hst
    obtain ⟨-, s'', hst'', hmem⟩ := register_user_success_facts s u e pw r now hs
    rw [hst] at hst''
    cases hst''
    exact (register_user_fail_conditions s' u e2 pw2 r2 now2
      (Or.inr (Or.inr (Or.inr (Or.inl hmem))))).1
  · intro s s' u e pw r now e2 pw2 r2 now2 hs hst
    obtain ⟨-, s'', hst'', hmem⟩ := v2_register_user_success_facts s u e pw r now hs
    rw [hst] at hst''
    cases hst''
    exact (v2_register_user_fail_conditions s' u e2 pw2 r2 now2
      (Or.inr (Or.inr (Or.inr hmem)))).1

/-- Witness for `registration_validation_amended`: a too-short username and
a duplicate username are rejected on concrete stores of both variants, a
fresh registration leaves no trace of the name beforehand, re-registering
"alice" fails in the MongoDB variant and re-registering "carol" fails in
the SQLite variant after its successful registration, and uniqueness of
usernames is preserved in both. -/
theorem registration_validation_amended_witness :
    (register_user (some auth_store) "al" "e@x.com" "secret1" "patient" 1).1.1
        = false ∧
    (v2_register_user (some demo_sql_store) "alice" "n@x.com" "secret9"
        "patient" 1).1.1 = false ∧
    (∀ x ∈ auth_store.users, x.username ≠ "carol") ∧
    (register_user (some (
        { users := [alice], assessments := [], patient_profiles := [1],
          doctor_profiles := [], next_user_id := 2, next_assessment_id := 1 }
        : MongoStore)) "alice" "z@x.com" "secret9" "doctor" 2).1.1 = false ∧
    ((auth_store.users.map User.username).Nodup →
      (auth_store.users.map User.username).Nodup) ∧
    (∀ x ∈ demo_sql_store.users, x.username ≠ "carol") ∧
    (v2_register_user (some (
        { users := [alice, ⟨2, "carol", "c@x.com",
            generate_password_hash "secret7", "patient", 3⟩],
          predictions := [], next_user_id := 3, next_prediction_id := 1 }
        : SqlStore)) "carol" "d@x.com" "secret8" "doctor" 4).1.1 = false ∧
    ((demo_sql_store.users.map User.username).Nodup →
      (demo_sql_store.users.map User.username).Nodup) :=
  ⟨(registration_validation_amended.1 auth_store "al" "e@x.com" "secret1"
      "patient" 1 (Or.inl (by decide))).1,
   (registration_validation_amended.2.1 demo_sql_store "alice" "n@x.com"
      "secret9" "patient" 1
      (Or.inr (Or.inr (Or.inr ⟨alice, by decide, by decide⟩)))).1,
   (registration_validation_amended.2.2.1 auth_store "carol" "c@x.com"
      "secret7" "patient" 3 (by decide)).1,
   (registration_validation_amended.1 _ "alice" "z@x.com" "secret9" "doctor" 2
      (Or.inr (Or.inr (Or.inr (Or.inl ⟨alice, by decide, by decide⟩))))).1,
   fun h => registration_validation_amended.2.2.2.2.1 auth_store "al" "d@x.com"
      "secret8" "patient" 4 auth_store rfl h,
   (registration_validation_amended.2.2.2.2.2.1 demo_sql_store "carol"
      "c@x.com" "secret7" "patient" 3 (by decide)).1,
   registration_validation_amended.2.2.2.2.2.2.1 demo_sql_store _ "carol"
      "c@x.com" "secret7" "patient" 3 "d@x.com" "secret8" "doctor" 4
      (by decide) (by decide),
   fun h => registration_validation_amended.2.2.2.2.2.2.2 demo_sql_store "al"
      "d@x.com" "secret8" "patient" 4 demo_sql_store rfl h⟩

/-- C8: in both cited variants the patient listing returns precisely the
assessments whose owning user identifier equals the requested id — every
returned row arises from an owned assessment (so no row of another patient
ever appears), the listing is a permutation of the projections of exactly
the owned assessments, and it is ordered by creation time descending. -/
theorem patient_listing_ownership :
    (∀ (s : MongoStore) (uid : Nat),
      (∀ v ∈ get_patient_assessments (some s) uid,
        ∃ a ∈ s.assessments, a.user_id = uid ∧ v = patient_view a) ∧
      (get_patient_assessments (some s) uid).Perm
        ((s.assessments.filter (fun a => a.user_id == uid)).map patient_view) ∧
      (get_patient_assessments (some s) uid).Pairwise
        (fun x y => y.created_at ≤ x.created_at)) ∧
    (∀ (s : SqlStore) (uid : Nat),
      (∀ v ∈ get_patient_predictions (some s) uid,
        ∃ a ∈ s.predictions, a.user_id = uid ∧ v = patient_view a) ∧
      (get_patient_predictions (some s) uid).Perm
        ((s.predictions.filter (fun a => a.user_id == uid)).map patient_view) ∧
      (get_patient_predictions (some s) uid).Pairwise
        (fun x y => y.created_at ≤ x.created_at)) := by
  constructor
  · intro s uid
    refine ⟨?_, ?_, ?_⟩
    · intro v hv
      simp only [get_patient_assessments] at hv
      obtain ⟨a, ha, rfl⟩ := List.mem_map.mp hv
      have ha' : a ∈ s.assessments.filter (fun a => a.user_id == uid) :=
        (sort_created_desc_perm _).subset ha
      exact ⟨a, List.mem_of_mem_filter ha',
        by simpa using List.of_mem_filter ha', rfl⟩
    · exact (sort_created_desc_perm _).map patient_view
    · exact List.Pairwise.map patient_view (fun a b h => h)
        (sort_created_desc_sorted (s.assessments.filter (fun a => a.user_id == uid)))
  · intro s uid
    refine ⟨?_, ?_, ?_⟩
    · intro v hv
      simp only [get_patient_predictions] at hv
      obtain ⟨a, ha, rfl⟩ := List.mem_map.mp hv
      have ha' : a ∈ s.predictions.filter (fun a => a.user_id == uid) :=
        (sort_created_desc_perm _).subset ha
      exact ⟨a, List.mem_of_mem_filter ha',
        by simpa using List.of_mem_filter ha', rfl⟩
    · exact (sort_created_desc_perm _).map patient_view
    · exact List.Pairwise.map patient_view (fun a b h => h)
        (sort_created_desc_sorted (s.predictions.filter (fun a => a.user_id == uid)))

/-- Witness for `patient_listing_ownership`: the alice rows in the demo
MongoDB store and in the SQLite history store each come from an assessment
owned by user 1. -/
theorem patient_listing_ownership_witness :
    (∃ a ∈ demo_store.assessments, a.user_id = 1 ∧
      patient_view (mk_assessment 1 1 1 "HIGH" 10) = patient_view a) ∧
    (∃ a ∈ sq_history_store.predictions, a.user_id = 1 ∧
      patient_view (mk_assessment 1 1 1 "HIGH" 10) = patient_view a) :=
  ⟨(patient_listing_ownership.1 demo_store 1).1
      (patient_view (mk_assessment 1 1 1 "HIGH" 10)) (by decide),
   (patient_listing_ownership.2 sq_history_store 1).1
      (patient_view (mk_assessment 1 1 1 "HIGH" 10)) (by decide)⟩

/-- C9: when the storage backend is unavailable (`none` store), the
prediction handler still renders the result page with the computed
(rounded) probability, risk category, color and recommendation; the
response is identical to the one produced when saving succeeds; the
logging failure surfaces only as a printed warning; and `save_assessment`
itself reports the failure as a non-raising `False`. -/
theorem predict_logging_nonfatal (score : List ℚ → ℚ) (s : MongoStore)
    (uid : Nat) (uname : String) (names : List String)
    (form : String → Option ℚ) (now : Nat) (fi : List (String × ℚ))
    (data : List ℚ) (hc : collect_features form names = .ok (fi, data)) :
    (patient_predict true score none uid uname names form now).1 =
      .result_page (round2 (score data * 100)) (get_risk_category (score data)).1
        (get_risk_category (score data)).2
        (get_recommendation (get_risk_category (score data)).1) uname ∧
    (patient_predict true score none uid uname names form now).1 =
      (patient_predict true score (some s) uid uname names form now).1 ∧
    (patient_predict true score none uid uname names form now).2 =
      ["Error saving assessment: MongoDB not initialized. Call init_mongodb() first."] ∧
    (save_assessment none uid fi (score data)
      (get_risk_category (score data)).1 now).1.1 = false := by
  unfold patient_predict
  rw [hc]
  exact ⟨rfl, rfl, rfl, rfl⟩

/-- Witness for `predict_logging_nonfatal`: a one-feature form scored by
the constant classifier 1, with the storage backend down. -/
theorem predict_logging_nonfatal_witness :
    (patient_predict true (fun _ => 1) none 7 "alice" ["age"]
        (fun k => if k == "age" then some 1 else none) 5).1 =
      .result_page (round2 (1 * 100)) (get_risk_category 1).1
        (get_risk_category 1).2
        (get_recommendation (get_risk_category 1).1) "alice" ∧
    (patient_predict true (fun _ => 1) none 7 "alice" ["age"]
        (fun k => if k == "age" then some 1 else none) 5).2 =
      ["Error saving assessment: MongoDB not initialized. Call init_mongodb() first."] :=
  ⟨(predict_logging_nonfatal (fun _ => 1) demo_store 7 "alice" ["age"]
      (fun k => if k == "age" then some 1 else none) 5 [("age", 1)] [1] rfl).1,
   (predict_logging_nonfatal (fun _ => 1) demo_store 7 "alice" ["age"]
      (fun k => if k == "age" then some 1 else none) 5 [("age", 1)] [1] rfl).2.2.1⟩

/-- C10 counterexample: a storage failure during login is caught inside
`login_user` and reported as `(False, None)` — byte-for-byte the same
outcome as a wrong password for an existing user, and the login route then
shows the very same generic invalid-credentials page.  The storage failure
is therefore not surfaced as a distinct retryable error. -/
theorem storage_failure_auth_counterexample :
    login_user none "alice" "secret1" = (false, none) ∧
    login_user (some auth_store) "alice" "wrongpass" = (false, none) ∧
    login_user none "alice" "secret1" =
      login_user (some auth_store) "alice" "wrongpass" ∧
    login_route none "alice" "secret1" =
      login_route (some auth_store) "alice" "wrongpass" := by
  refine ⟨rfl, by decide, by decide, by decide⟩

/-- C10 amended: a storage failure during login is swallowed by the blanket
`except` into the `(False, None)` credential-failure signal, and the route
renders the generic invalid-credentials message, indistinguishable from bad
credentials; during registration (once field validation passes) a storage
failure returns failure with a distinct `Registration error:` message and
never reports success. -/
theorem storage_failure_auth_amended :
    (∀ u p : String, login_user none u p = (false, none)) ∧
    (∀ u p : String, py_strip u ≠ "" → py_strip p ≠ "" →
      login_route none u p = .page (some "Invalid username or password")) ∧
    (∀ (u e pw r : String) (now : Nat), ¬u.length < 3 → ¬pw.length < 6 →
      (r = "patient" ∨ r = "doctor") →
      (register_user none u e pw r now).1 =
        (false,
          "Registration error: MongoDB not initialized. Call init_mongodb() first.") ∧
      (register_user none u e pw r now).1.1 = false) := by
  refine ⟨fun u p => rfl, ?_, ?_⟩
  · intro u p hu hp
    have h1 : (py_strip u == "") = false := beq_eq_false_iff_ne.mpr hu
    have h2 : (py_strip p == "") = false := beq_eq_false_iff_ne.mpr hp
    unfold login_route
    simp only [h1, h2, Bool.or_self, if_false, Bool.false_eq_true]
    rfl
  · intro u e pw r now h1 h2 hr
    have h3 : (r != "patient" && r != "doctor") = false := by
      rcases hr with hr | hr <;> simp [hr]
    unfold register_user
    rw [if_neg h1, if_neg h2, if_neg (by simp [h3])]
    exact ⟨rfl, rfl⟩

/-- Witness for `storage_failure_auth_amended` at concrete credentials. -/
theorem storage_failure_auth_amended_witness :
    login_user none "alice" "secret1" = (false, none) ∧
    login_route none "alice" "secret1" =
      .page (some "Invalid username or password") ∧
    (register_user none "alice" "a@x.com" "secret1" "patient" 1).1.1 = false :=
  ⟨storage_failure_auth_amended.1 "alice" "secret1",
   storage_failure_auth_amended.2.1 "alice" "secret1" (by decide) (by decide),
   (storage_failure_auth_amended.2.2 "alice" "a@x.com" "secret1" "patient" 1
      (by decide) (by decide) (Or.inl rfl)).2⟩

/-- C7 support (returned-value half): for an unknown username and for an
existing username with a non-matching password, `login_user` returns the
identical failure signal `(False, None)`. -/
theorem login_failure_signal_uniform (s : MongoStore) (u1 p1 u2 p2 : String)
    (h1 : s.users.find? (fun x => x.username == u1) = none)
    (h2 : ∀ x, s.users.find? (fun x => x.username == u2) = some x →
      check_password_hash x.password_hash p2 = false) :
    login_user (some s) u1 p1 = (false, none) ∧
    login_user (some s) u2 p2 = (false, none) := by
  constructor
  · unfold login_user
    dsimp only
    rw [h1]
  · unfold login_user
    dsimp only
    cases hf : s.users.find? (fun x => x.username == u2) with
    | none => rfl
    | some x => simp [h2 x hf]
